import Mathlib

/-!
Verification development for the `e_pub_sorter` pipeline
(`src/e_pub_sorter.py`).  The pipeline is shallowly embedded: paths are
lists of components, the file system is an association list from paths to
file contents, and each stage of the `Epub` class becomes a function on an
explicit state.  Python exceptions are modelled with `Except`.
-/

namespace EpubSorter

/-- A filesystem path, as its list of components (relative to the working
directory, like `pathlib.Path` relative paths in the source). -/
abbrev FsPath := List String

/-- Folder `Path() / "[duplicates]"` (line 20 of the source). -/
def duplicate_folder : FsPath := ["[duplicates]"]

/-- Folder `Path() / "[failed]"` (line 24 of the source). -/
def failed_folder : FsPath := ["[failed]"]

/-- Folder `Path() / "[processed]"` (line 25 of the source). -/
def processed_folder : FsPath := ["[processed]"]

/-- The constant `CSV_HEADER` (line 12 of the source), in its declaration order. -/
def CSV_HEADER : List String :=
  ["is_duplicate", "is_failed", "path", "identifier", "title", "file", "author"]

/-- Python's `Path.parent`: all components but the last. -/
def FsPath.parent (p : FsPath) : FsPath := p.dropLast

/-- Python's `Path.name`: the final component (empty for the bare working dir). -/
def FsPath.name (p : FsPath) : String := p.getLastD ""

/-- Python's `str(path)` for a relative `PosixPath`: components joined by `/`. -/
def joinSep (sep : String) : List String → String
  | [] => ""
  | [x] => x
  | x :: y :: xs => x ++ sep ++ joinSep sep (y :: xs)

def pathStr (p : FsPath) : String := joinSep "/" p

/-- Python `str.replace(a, b)` for one-character `a`, `b` — the only form
the source uses (`.replace(",", "_")`, `.replace(" ", "_")`). -/
def replaceChar (a b : Char) (s : String) : String :=
  String.mk (s.data.map (fun c => if c = a then b else c))

/-- Python's `str.endsWith`, on the character lists. -/
def strEndsWith (s suff : String) : Bool :=
  suff.data.isSuffixOf s.data

/-- Index of the last `.` in a list of characters, if any. -/
def rfindDotAux : List Char → Nat → Option Nat
  | [], _ => none
  | c :: cs, i =>
    match rfindDotAux cs (i + 1) with
    | some j => some j
    | none => if c = '.' then some i else none

/-- Python's `pathlib.PurePath.suffix` on a file name: `name[i:]` for the last dot
index `i` when `0 < i < len(name) - 1`, else the empty string. -/
def nameSuffix (n : String) : String :=
  match rfindDotAux n.data 0 with
  | none => ""
  | some i =>
    if 0 < i ∧ i < n.data.length - 1 then String.mk (n.data.drop i) else ""

/-- The metadata record returned by `ebookmeta.get_metadata`. -/
structure Metadata where
  identifier : String
  title : String
  author_list : List String
  file : String
deriving DecidableEq, Repr, Inhabited

/-- The `ebookmeta` method `author_list_to_string` (authors joined by `", "`). -/
def Metadata.author_list_to_string (m : Metadata) : String :=
  joinSep ", " m.author_list

/-- Content of a file on disk: either an epub whose metadata decodes to
`m`, or a file on which `ebookmeta.get_metadata` raises. -/
inductive FileContent
  | book (m : Metadata)
  | broken
deriving DecidableEq, Repr, Inhabited

/-- The file system: an association list from occupied paths to contents. -/
abbrev FS := List (FsPath × FileContent)

/-- Python exceptions relevant to the pipeline. -/
inductive PyError
  | nameError
  | fileNotFound
  | decodeError
  | encodeError
  | directoryNotEmpty
deriving DecidableEq, Repr

def fsLookup (fs : FS) (p : FsPath) : Option FileContent :=
  (fs.find? (fun e => e.1 = p)).map (fun e => e.2)

def fsErase (fs : FS) (p : FsPath) : FS :=
  fs.filter (fun e => e.1 ≠ p)

/-- Python's `Path.rename(dst)`: fails when the source does not exist; silently
replaces a file already at the destination (POSIX semantics). -/
def fsRenameE (fs : FS) (src dst : FsPath) : Except PyError FS :=
  match fsLookup fs src with
  | none => .error .fileNotFound
  | some c => .ok (fsErase (fsErase fs src) dst ++ [(dst, c)])

/-- The library call `ebookmeta.get_metadata(path)`: decode the file at `path`; the returned
record's `file` field is the path it was read from. -/
def get_metadata (fs : FS) (p : FsPath) : Except PyError Metadata :=
  match fsLookup fs p with
  | some (.book m) => .ok { m with file := pathStr p }
  | some .broken => .error .decodeError
  | none => .error .fileNotFound

/-- One `self.data` element: the dict appended at lines 101–108 of the
source (`is_duplicate`, `is_failed`, `metadata`, `path`). -/
structure DataEntry where
  is_duplicate : Bool
  is_failed : Bool
  metadata : Metadata
  path : FsPath
deriving DecidableEq, Repr, Inhabited

/-- The mutable state of an `Epub` instance: the disk plus `self.data` and
`self.identifier_list`. -/
structure EpubState where
  fs : FS
  data : List DataEntry
  identifier_list : List String
deriving DecidableEq, Repr, Inhabited

/-- The folder a `self.data` entry's flags imply: `is_duplicate` entries
belong under the duplicate folder, otherwise `is_failed` entries under the
failed folder, otherwise under the processed folder. -/
def impliedFolder (d : DataEntry) : FsPath :=
  if d.is_duplicate then duplicate_folder
  else if d.is_failed then failed_folder
  else processed_folder

/-- Path/state consistency of one entry: its recorded `path` lies inside
the folder its flags imply. -/
def entryConsistent (d : DataEntry) : Bool :=
  (impliedFolder d).isPrefixOf d.path

/-- Method `detect_epubs` (lines 68–70): `rglob("*.epub")` over the root — every
existing file whose name ends in `.epub`. -/
def detect_epubs (fs : FS) : List FsPath :=
  (fs.map Prod.fst).filter (fun p => strEndsWith (FsPath.name p) ".epub")

/-- One iteration of the `extract_metadata` loop (lines 78–109).
`lastMeta` is the Python local variable `metadata`, unbound (`none`) until
the first successful decode; when a decode fails before any success, the
`self.data.append` at line 101 reads the unbound variable and raises
`NameError` (the file has already been renamed into the failed folder by
then, but the crashed state is not observed further). -/
def extractStep (st : EpubState) (lastMeta : Option Metadata) (epub : FsPath) :
    Except PyError (EpubState × Option Metadata) :=
  if (fsLookup st.fs epub).isSome ∧
      FsPath.parent epub ∉ [duplicate_folder, failed_folder, processed_folder] then
    match get_metadata st.fs epub with
    | .ok m => do
      let path := processed_folder ++ [FsPath.name epub]
      let fs' ← fsRenameE st.fs epub path
      .ok ({ st with
              fs := fs'
              data := st.data ++ [⟨false, false, m, path⟩]
              identifier_list := st.identifier_list ++ [m.identifier] },
           some m)
    | .error _ => do
      let path := failed_folder ++ [FsPath.name epub]
      let fs' ← fsRenameE st.fs epub path
      match lastMeta with
      | none => .error .nameError
      | some m =>
        .ok ({ st with fs := fs', data := st.data ++ [⟨false, true, m, path⟩] },
             lastMeta)
  else
    .ok (st, lastMeta)

def extract_metadata_go (st : EpubState) (lastMeta : Option Metadata) :
    List FsPath → Except PyError EpubState
  | [] => .ok st
  | e :: rest => do
    let r ← extractStep st lastMeta e
    extract_metadata_go r.1 r.2 rest

/-- Method `extract_metadata` (lines 72–109) over the discovered `epub_list`. -/
def extract_metadata (st : EpubState) (epub_list : List FsPath) :
    Except PyError EpubState :=
  extract_metadata_go st none epub_list

/-- The indices into `self.data` collected as `duplicate_list`
(lines 112–127): for each element of `identifier_list` occurring more than
once, every data entry whose recorded metadata carries that identifier. -/
def duplicateIndices (st : EpubState) : List Nat :=
  st.identifier_list.flatMap (fun identifier =>
    if st.identifier_list.count identifier > 1 then
      (List.range st.data.length).filter
        (fun i => (st.data.get? i).map (fun d => d.metadata.identifier)
          = some identifier)
    else [])

/-- One iteration of the move loop (lines 134–139): mark the referenced
entry as duplicate and rename its file into the duplicate folder. -/
def moveDuplicate (st : EpubState) (i : Nat) : Except PyError EpubState :=
  match st.data.get? i with
  | none => .ok st
  | some d => do
    let path := duplicate_folder ++ [FsPath.name d.path]
    let fs' ← fsRenameE st.fs d.path path
    .ok { st with
            fs := fs'
            data := st.data.set i { d with is_duplicate := true, path := path } }

/-- Method `find_duplicate_by_identifier` (lines 111–140). -/
def find_duplicate_by_identifier (st : EpubState) : Except PyError EpubState :=
  (duplicateIndices st).foldlM moveDuplicate st

/-- Method `get_processed_epub` (lines 161–162): `rglob("*.epub")` under the
processed folder. -/
def get_processed_epub (fs : FS) : List FsPath :=
  (fs.map Prod.fst).filter
    (fun p => processed_folder.isPrefixOf p ∧ strEndsWith (FsPath.name p) ".epub")

/-- Result of the `update_data` loop: the writer state (file system or
write log), the data list, and whether a write raised (`EncodeError`),
which in the source propagates as an uncaught exception. -/
structure UpdateResult (σ : Type) where
  state : σ
  data : List DataEntry
  failed : Bool
deriving Repr

/-- Apply the optional `path` argument of `update_data` (lines 222–223). -/
def applyPath (path : Option FsPath) (d : DataEntry) : DataEntry :=
  match path with
  | some p => { d with path := p }
  | none => d

/-- The `update_data` loop (lines 216–223), generic in the write-back
effect `write` (`ebookmeta.set_metadata`).  Entries are visited in order;
a matching entry first has the supplied metadata written to its current
path, then its record replaced, then the supplied path installed.  A write
failure stops the loop there: entries already visited keep their updates,
the failing entry and all later entries are untouched. -/
def update_data_go {σ : Type} (write : σ → FsPath → Metadata → Except PyError σ)
    (identifier : String) (metadata : Option Metadata) (path : Option FsPath) :
    σ → List DataEntry → UpdateResult σ
  | s, [] => ⟨s, [], false⟩
  | s, d :: rest =>
    if d.metadata.identifier = identifier then
      match metadata with
      | some m =>
        match write s d.path m with
        | .error _ => ⟨s, d :: rest, true⟩
        | .ok s' =>
          let r := update_data_go write identifier metadata path s' rest
          ⟨r.state, applyPath path { d with metadata := m } :: r.data, r.failed⟩
      | none =>
        let r := update_data_go write identifier metadata path s rest
        ⟨r.state, applyPath path d :: r.data, r.failed⟩
    else
      let r := update_data_go write identifier metadata path s rest
      ⟨r.state, d :: r.data, r.failed⟩

/-- The library call `ebookmeta.set_metadata(path, m)` against the modelled file system:
overwrites the content at `path`; raises if no file is there. -/
def set_metadata (fs : FS) (p : FsPath) (m : Metadata) : Except PyError FS :=
  match fsLookup fs p with
  | none => .error .fileNotFound
  | some _ => .ok (fsErase fs p ++ [(p, .book m)])

/-- Method `update_data` (lines 216–223) inside the pipeline: write-back goes to
the modelled file system; an `EncodeError` propagates out. -/
def update_data_fs (st : EpubState) (identifier : String)
    (metadata : Option Metadata) (path : Option FsPath) :
    Except PyError EpubState :=
  let r := update_data_go set_metadata identifier metadata path st.fs st.data
  if r.failed then .error .encodeError
  else .ok { st with fs := r.state, data := r.data }

/-- Method `update_data` as exercised by the Curator (lines 213 / 239), with the
MetadataPort write-back abstracted by a success oracle `port`; the writer
state is the log of performed writes. -/
def update_data_port (port : FsPath → Bool) (data : List DataEntry)
    (identifier : String) (metadata : Option Metadata) (path : Option FsPath) :
    UpdateResult (List (FsPath × Metadata)) :=
  update_data_go
    (fun log p m => if port p then .ok (log ++ [(p, m)]) else .error .encodeError)
    identifier metadata path [] data

/-- The sanitized author string of `author_group` (lines 56–58):
`"-".join(author_list).replace(",", "_").replace(" ", "_")`. -/
def author_sanitize (authors : List String) : String :=
  replaceChar ' ' '_' (replaceChar ',' '_' (joinSep "-" authors))

/-- One iteration of the `author_group` loop (lines 54–66): read the
file's metadata, move it into the author subfolder of the processed
folder, and update every data entry carrying its identifier. -/
def author_group_step (st : EpubState) (epub : FsPath) :
    Except PyError EpubState := do
  let m ← get_metadata st.fs epub
  let author_folder := processed_folder ++ [author_sanitize m.author_list]
  let dst := author_folder ++ [FsPath.name epub]
  let fs' ← fsRenameE st.fs epub dst
  update_data_fs { st with fs := fs' } m.identifier none (some dst)

/-- Method `author_group` (lines 47–66), over the snapshot of processed files. -/
def author_group (st : EpubState) : Except PyError EpubState :=
  (get_processed_epub st.fs).foldlM author_group_step st

/-- The new file name built at line 181 of the source:
`f"{metadata.title.replace(',','_').replace(' ','_')}.{epub.suffix}"` —
note the literal dot inserted before `Path.suffix`, which itself starts
with a dot. -/
def rename_target (title suffix : String) : String :=
  replaceChar ' ' '_' (replaceChar ',' '_' title) ++ "." ++ suffix

/-- One iteration of the `rename_file` loop (lines 177–183): the file is
renamed on disk; `self.data` is not updated. -/
def rename_file_step (st : EpubState) (epub : FsPath) :
    Except PyError EpubState := do
  let m ← get_metadata st.fs epub
  let dst := processed_folder ++ [rename_target m.title (nameSuffix (FsPath.name epub))]
  let fs' ← fsRenameE st.fs epub dst
  .ok { st with fs := fs' }

/-- Method `rename_file` (lines 170–183). -/
def rename_file (st : EpubState) : Except PyError EpubState :=
  (get_processed_epub st.fs).foldlM rename_file_step st

/-- Python's `str(True)` / `str(False)`, as `csv.DictWriter` serializes booleans. -/
def pyBool (b : Bool) : String := if b then "True" else "False"

/-- One report row (lines 146–154), keyed record of the dict's values. -/
structure CsvRow where
  author : String
  file : String
  identifier : String
  is_duplicate : Bool
  is_failed : Bool
  path : FsPath
  title : String
deriving DecidableEq, Repr

/-- The row built from one data entry (lines 146–154). -/
def rowOf (d : DataEntry) : CsvRow :=
  { author := d.metadata.author_list_to_string
    file := d.metadata.file
    identifier := d.metadata.identifier
    is_duplicate := d.is_duplicate
    is_failed := d.is_failed
    path := d.path
    title := d.metadata.title }

/-- The serialized cell of a row under a given column name, as
`csv.DictWriter` renders the dict's value with `str`. -/
def CsvRow.cell (r : CsvRow) (c : String) : String :=
  if c = "author" then r.author
  else if c = "file" then r.file
  else if c = "identifier" then r.identifier
  else if c = "is_duplicate" then pyBool r.is_duplicate
  else if c = "is_failed" then pyBool r.is_failed
  else if c = "path" then pathStr r.path
  else if c = "title" then r.title
  else ""

/-- Code-point comparison of strings, as Python compares `str`. -/
def charListLe : List Char → List Char → Bool
  | [], _ => true
  | _ :: _, [] => false
  | a :: as, b :: bs =>
    if a < b then true else if b < a then false else charListLe as bs

def strLeB (a b : String) : Bool := charListLe a.data b.data

def insertSorted (x : String) : List String → List String
  | [] => [x]
  | y :: ys => if strLeB x y then x :: y :: ys else y :: insertSorted x ys

/-- Python's `sorted` on a list of strings (stable, ascending). -/
def sortStrings (l : List String) : List String := l.foldr insertSorted []

/-- Method `generate_csv` (lines 142–159): the header (the sorted column names)
and one list of serialized cells per data entry, in header order. -/
def generate_csv (data : List DataEntry) : List String × List (List String) :=
  (sortStrings CSV_HEADER,
   data.map (fun d => (sortStrings CSV_HEADER).map (rowOf d).cell))

/-- Lexicographic comparison of paths, component-wise by code points —
how Python orders `Path` objects (tuple comparison of their parts). -/
def pathLexLe : FsPath → FsPath → Bool
  | [], _ => true
  | _ :: _, [] => false
  | a :: as, b :: bs =>
    if strLeB a b then (if strLeB b a then pathLexLe as bs else true) else false

def insertPathDesc (x : FsPath) : List FsPath → List FsPath
  | [] => [x]
  | y :: ys => if pathLexLe y x then x :: y :: ys else y :: insertPathDesc x ys

/-- Python's `sorted(l, reverse=True)` on paths. -/
def sortPathsDesc (l : List FsPath) : List FsPath := l.foldr insertPathDesc []

/-- The directory tree under the working root for the cleanup pass: the
directories and the files that exist (each as a path). -/
structure World where
  dirs : List FsPath
  files : List FsPath
deriving DecidableEq, Repr

/-- Python's `any(folder.iterdir())`: the directory has an immediate child (a file
or a directory whose parent it is). -/
def hasChild (w : World) (d : FsPath) : Bool :=
  (w.dirs ++ w.files).any (fun p => decide (FsPath.parent p = d ∧ p ≠ d))

/-- Method `_find_empty_folders` (lines 38–45): every directory under the root
with no entry, scanned once. -/
def find_empty_folders (w : World) : List FsPath :=
  w.dirs.filter (fun d => !(hasChild w d))

/-- Python's `Path.rmdir()`: fails on a missing or non-empty directory. -/
def rmdir (w : World) (d : FsPath) : Except PyError World :=
  if d ∈ w.dirs then
    if hasChild w d then .error .directoryNotEmpty
    else .ok { w with dirs := w.dirs.erase d }
  else .error .fileNotFound

/-- Method `remove_empty_folder` (lines 185–194): remove the directories found
empty by the single scan, deepest (reverse-sorted) first. -/
def remove_empty_folder (w : World) : Except PyError World :=
  (sortPathsDesc (find_empty_folders w)).foldlM rmdir w

/-! ### Concrete scenarios -/

/-- Metadata of a decodable book `a.epub` (identifier `ISBN-1`). -/
def mA : Metadata := ⟨"ISBN-1", "A", ["X"], "orig"⟩

/-- A second decodable book carrying the same identifier `ISBN-1`. -/
def mC : Metadata := ⟨"ISBN-1", "C", ["Y"], "orig"⟩

/-- Root with one decodable book and one undecodable file. -/
def fsAB : FS := [(["a.epub"], .book mA), (["b.epub"], .broken)]

def stAB : EpubState := ⟨fsAB, [], []⟩

/-- Classifier output on `fsAB`. -/
def cClassified : EpubState :=
  match extract_metadata stAB (detect_epubs stAB.fs) with
  | .ok st => st
  | .error _ => default

/-- Classifier → DuplicateResolver → Organizer grouping on `fsAB`. -/
def c1Run : Except PyError EpubState :=
  (find_duplicate_by_identifier cClassified).bind author_group

def c1Final : EpubState :=
  match c1Run with
  | .ok st => st
  | .error _ => default

/-- Root for the duplicate scenario: two decodable books sharing
identifier `ISBN-1` with an undecodable file between them. -/
def fsABC : FS :=
  [(["a.epub"], .book mA), (["b.epub"], .broken), (["c.epub"], .book mC)]

/-- Classifier output on `fsABC`. -/
def c2Classified : EpubState :=
  match extract_metadata ⟨fsABC, [], []⟩ (detect_epubs fsABC) with
  | .ok st => st
  | .error _ => default

/-- DuplicateResolver output on `fsABC`. -/
def c2Resolved : EpubState :=
  match find_duplicate_by_identifier c2Classified with
  | .ok st => st
  | .error _ => default

/-- Root with a single decodable book. -/
def fsA : FS := [(["a.epub"], .book mA)]

/-- The file system after a full first pipeline run (Classifier →
DuplicateResolver → grouping) over `fsA`. -/
def c3FirstFs : FS :=
  match (extract_metadata ⟨fsA, [], []⟩ (detect_epubs fsA)).bind
      (fun st => (find_duplicate_by_identifier st).bind author_group) with
  | .ok st => st.fs
  | .error _ => []

/-- A second Classifier run over the same root, on a fresh instance. -/
def c3SecondRun : Except PyError EpubState :=
  extract_metadata ⟨c3FirstFs, [], []⟩ (detect_epubs c3FirstFs)

/-- A book titled `"My, Book"` for the rename scenario. -/
def mMyBook : Metadata := ⟨"ISBN-7", "My, Book", ["Z"], "orig"⟩

def fsMyBook : FS := [(["b.epub"], .book mMyBook)]

/-- Classifier output on `fsMyBook`. -/
def c7Classified : EpubState :=
  match extract_metadata ⟨fsMyBook, [], []⟩ (detect_epubs fsMyBook) with
  | .ok st => st
  | .error _ => default

/-- A directory `a` whose only entry is the empty directory `a/b`. -/
def c8World : World := ⟨[["a"], ["a", "b"]], []⟩

/-- Entries for the Curator write-back scenarios. -/
def e1 : DataEntry := ⟨false, false, ⟨"I", "T1", ["A1"], "f1"⟩, ["p1"]⟩

def e2 : DataEntry := ⟨false, false, ⟨"I", "T2", ["A2"], "f2"⟩, ["p2"]⟩

def eOther : DataEntry := ⟨false, false, ⟨"J", "T0", ["A0"], "f0"⟩, ["p0"]⟩

/-- The metadata an operator edit supplies. -/
def mNew : Metadata := ⟨"I", "NewTitle", ["NewAuthor"], "f"⟩

/-- A MetadataPort whose write fails exactly at `["p2"]`. -/
def c9Port : FsPath → Bool := fun p => !(p == ["p2"])

def c9Result : UpdateResult (List (FsPath × Metadata)) :=
  update_data_port c9Port [e1, e2] "I" (some mNew) none

/-! ### Theorems -/

/-- C1: after the Organizer's grouping stage, the catalog can hold a
Failed entry whose recorded location lies inside the processed folder (the
identifier-keyed update hits the Failed entry, whose record aliases the
previous successful file's metadata), while the failed file itself still
sits in the failed folder — refuting the path/state consistency invariant. -/
theorem c1_failed_entry_location_escapes_failed_folder :
    ((c1Final.data.get? 1).map
        (fun d => (d.is_failed, d.is_duplicate, entryConsistent d, d.path)),
      fsLookup c1Final.fs ["[failed]", "b.epub"])
      = (some (true, false, false, ["[processed]", "X", "a.epub"]),
         some .broken) := by
  rfl

/-- C2: with two Processed entries sharing identifier `ISBN-1`
(multiplicity `k = 2`) and one Failed entry whose stale record also
carries `ISBN-1`, the DuplicateResolver marks three entries as Duplicate
and drags the failed file into the duplicate folder — not exactly `k`. -/
theorem c2_resolver_marks_three_entries_for_multiplicity_two :
    (c2Classified.identifier_list.count "ISBN-1",
      c2Resolved.data.countP
        (fun d => d.is_duplicate && (d.metadata.identifier == "ISBN-1")),
      fsLookup c2Resolved.fs ["[duplicates]", "b.epub"])
      = (2, 3, some .broken) := by
  rfl

/-- C4: when the very first discovered file fails to decode, the
`self.data.append` at line 101 reads the still-unbound local `metadata`
and the Classifier crashes with `NameError` — the decode failure is fatal. -/
theorem c4_first_file_decode_failure_is_fatal :
    extract_metadata ⟨[(["b.epub"], .broken)], [], []⟩ [["b.epub"]]
      = .error .nameError := by
  rfl

/-- C5: the report row of the entry created for the failed file `b.epub`
has `is_failed = True` but carries file `a.epub`'s author, file name,
identifier and title instead of empty fields. -/
theorem c5_failed_row_carries_previous_file_fields :
    (generate_csv c1Final.data).2.get? 1
      = some ["X", "a.epub", "ISBN-1", "False", "True",
              "[processed]/X/a.epub", "A"] := by
  rfl

/-- C7: a Processed file `b.epub` with title `"My, Book"` is renamed to
`My__Book..epub` — the f-string at line 181 inserts a dot before
`Path.suffix`, which already starts with one — not to `My__Book.epub`. -/
theorem c7_rename_produces_double_dot :
    (rename_file c7Classified).map
        (fun st =>
          (fsLookup st.fs ["[processed]", "My__Book..epub"],
            fsLookup st.fs ["[processed]", "My__Book.epub"]))
      = .ok (some (.book mMyBook), none) := by
  rfl

/-- C8 counterexample: directory `a` contains only the empty directory
`a/b`; the single scan finds only `a/b`, so after the pass `a` is left in
place although it now has zero entries — refuting the claim that such a
parent is also detected and removed. -/
theorem c8_emptied_parent_survives_cleanup :
    (remove_empty_folder c8World,
      hasChild ⟨[["a"]], []⟩ ["a"])
      = (.ok ⟨[["a"]], []⟩, false) := by
  rfl

/-- C9 counterexample: two entries share identifier `I`; the write to the
second entry's file fails.  The first entry has already been rewritten
(partial state is recorded), the writes log shows its write went through,
and the failure flag is set — the exception propagates instead of being
contained, refuting "no partial state is recorded" and "processing of the
remaining entries continues". -/
theorem c9_write_failure_leaves_partial_update :
    c9Result
      = ⟨[(["p1"], mNew)], [{ e1 with metadata := mNew }, e2], true⟩ := by
  rfl

/-- C3 counterexample: after a full first pipeline run over a root with
one book, the file sits in `[processed]/X/a.epub`; a second Classifier run
does not skip it (its parent is the author subfolder, not one of the three
managed folders) and relocates it back to `[processed]/a.epub`, recording
a fresh entry — a state change. -/
theorem c3_second_classifier_run_changes_state :
    c3SecondRun.map
        (fun st =>
          (st.data.length,
            fsLookup st.fs ["[processed]", "a.epub"],
            fsLookup st.fs ["[processed]", "X", "a.epub"]))
      = .ok (1, some (.book mA), none) := by
  rfl

theorem extract_metadata_go_skip :
    ∀ (l : List FsPath) (st : EpubState) (lm : Option Metadata),
      (∀ p ∈ l,
        FsPath.parent p ∈ [duplicate_folder, failed_folder, processed_folder]) →
      extract_metadata_go st lm l = .ok st
  | [], _, _, _ => rfl
  | e :: rest, st, lm, h => by
    have he := h e (List.mem_cons_self e rest)
    have hstep : extractStep st lm e = .ok (st, lm) := by
      unfold extractStep
      rw [if_neg]
      intro hc
      exact hc.2 he
    unfold extract_metadata_go
    rw [hstep]
    exact extract_metadata_go_skip rest st lm
      (fun p hp => h p (List.mem_cons_of_mem e hp))

/-- C3 amended: a second Classifier pass leaves the state unchanged when
every discovered file's immediate parent is one of the three managed
folders; files placed in a subfolder of a managed folder (as the grouping
step does) are not skipped, so re-running after a full pipeline run does
change state. -/
theorem extract_metadata_managed_parent_noop (st : EpubState)
    (l : List FsPath)
    (h : ∀ p ∈ l,
      FsPath.parent p ∈ [duplicate_folder, failed_folder, processed_folder]) :
    extract_metadata st l = .ok st :=
  extract_metadata_go_skip l st none h

/-- Witness for the amended C3 theorem at a concrete input. -/
theorem extract_metadata_managed_parent_noop_witness :
    extract_metadata ⟨fsAB, [], []⟩
        [["[failed]", "x.epub"], ["[processed]", "y.epub"]]
      = .ok ⟨fsAB, [], []⟩ :=
  extract_metadata_managed_parent_noop ⟨fsAB, [], []⟩
    [["[failed]", "x.epub"], ["[processed]", "y.epub"]] (by decide)

/-- C6: the report header is the sorted column names; there is exactly one
row per catalog entry (equal counts); each row's cells are the entry's own
fields in header order, with the `is_duplicate` / `is_failed` columns
serialized through `pyBool` from the entry's final flags; and `pyBool`
yields exactly the literals `True` and `False`. -/
theorem generate_csv_shape (data : List DataEntry) :
    (generate_csv data).1
      = ["author", "file", "identifier", "is_duplicate", "is_failed",
         "path", "title"]
    ∧ (generate_csv data).2
      = data.map (fun d =>
          [d.metadata.author_list_to_string, d.metadata.file,
           d.metadata.identifier, pyBool d.is_duplicate, pyBool d.is_failed,
           pathStr d.path, d.metadata.title])
    ∧ (generate_csv data).2.length = data.length
    ∧ pyBool true = "True" ∧ pyBool false = "False" :=
  ⟨rfl, rfl, by simp [generate_csv], rfl, rfl⟩

theorem insertPathDesc_perm (x : FsPath) (l : List FsPath) :
    (insertPathDesc x l).Perm (x :: l) := by
  induction l with
  | nil => exact List.Perm.refl _
  | cons y ys ih =>
    unfold insertPathDesc
    by_cases h : pathLexLe y x
    · rw [if_pos h]
    · rw [if_neg h]
      exact (ih.cons y).trans (List.Perm.swap x y ys)

theorem sortPathsDesc_perm (l : List FsPath) : (sortPathsDesc l).Perm l := by
  induction l with
  | nil => exact List.Perm.refl _
  | cons x xs ih =>
    exact (insertPathDesc_perm x (sortPathsDesc xs)).trans (ih.cons x)

theorem hasChild_mono {dirs₁ dirs₂ files : List FsPath} {d : FsPath}
    (hsub : dirs₁ ⊆ dirs₂) :
    hasChild ⟨dirs₁, files⟩ d = true → hasChild ⟨dirs₂, files⟩ d = true := by
  simp only [hasChild, List.any_eq_true, List.mem_append, decide_eq_true_eq]
  rintro ⟨p, hp | hp, hpd⟩
  · exact ⟨p, Or.inl (hsub hp), hpd⟩
  · exact ⟨p, Or.inr hp, hpd⟩

theorem rmdir_foldlM (files : List FsPath) :
    ∀ (L dirs : List FsPath), dirs.Nodup → L.Nodup →
      (∀ d ∈ L, d ∈ dirs ∧ hasChild ⟨dirs, files⟩ d = false) →
      List.foldlM rmdir (⟨dirs, files⟩ : World) L
        = .ok ⟨dirs.filter (fun x => decide (x ∉ L)), files⟩
  | [], dirs, _, _, _ => by
    simp [List.foldlM_nil]
    rfl
  | d :: L', dirs, hnd, hndL, h => by
    obtain ⟨hdm, hde⟩ := h d (List.mem_cons_self d L')
    have hstep : rmdir ⟨dirs, files⟩ d = .ok ⟨dirs.erase d, files⟩ := by
      unfold rmdir
      rw [if_pos hdm, if_neg (by simp [hde])]
    have hndL' := (List.nodup_cons.mp hndL).2
    have hd_notL' : d ∉ L' := (List.nodup_cons.mp hndL).1
    have hrec := rmdir_foldlM files L' (dirs.erase d) (hnd.erase d) hndL'
      (fun x hx => by
        have hxd : x ≠ d := fun hxe => hd_notL' (hxe ▸ hx)
        obtain ⟨hxm, hxe⟩ := h x (List.mem_cons_of_mem d hx)
        refine ⟨(List.mem_erase_of_ne hxd).mpr hxm, ?_⟩
        cases hval : hasChild ⟨dirs.erase d, files⟩ x with
        | false => rfl
        | true =>
          exact absurd (hasChild_mono (List.erase_subset d dirs) hval)
            (by simp [hxe]))
    rw [List.foldlM_cons, hstep]
    show List.foldlM rmdir (⟨dirs.erase d, files⟩ : World) L' = _
    rw [hrec]
    have hfil : (dirs.erase d).filter (fun x => decide (x ∉ L'))
        = dirs.filter (fun x => decide (x ∉ d :: L')) := by
      rw [hnd.erase_eq_filter d, List.filter_filter]
      apply List.filter_congr
      intro x _
      by_cases h1 : x = d <;> by_cases h2 : x ∈ L' <;> simp [h1, h2]
    rw [hfil]

/-- C8 amended: the cleanup removes exactly the directories that had zero
entries at the single pre-removal scan (taken deepest-first); a directory
that becomes empty only because its child was removed is not detected
again and survives the pass. -/
theorem remove_empty_folder_removes_exactly_scanned (w : World)
    (hnd : w.dirs.Nodup) :
    remove_empty_folder w
      = .ok ⟨w.dirs.filter (fun d => hasChild w d), w.files⟩ := by
  obtain ⟨dirs, files⟩ := w
  unfold remove_empty_folder
  have hperm := sortPathsDesc_perm (find_empty_folders ⟨dirs, files⟩)
  have hmem : ∀ x, x ∈ sortPathsDesc (find_empty_folders ⟨dirs, files⟩)
      ↔ x ∈ dirs ∧ hasChild ⟨dirs, files⟩ x = false := by
    intro x
    rw [hperm.mem_iff]
    simp [find_empty_folders, List.mem_filter]
  have hndL : (sortPathsDesc (find_empty_folders ⟨dirs, files⟩)).Nodup :=
    hperm.nodup_iff.mpr (hnd.filter _)
  rw [rmdir_foldlM files _ dirs hnd hndL (fun d hd => (hmem d).mp hd)]
  have hfil : dirs.filter
        (fun x => decide (x ∉ sortPathsDesc (find_empty_folders ⟨dirs, files⟩)))
      = dirs.filter (fun d => hasChild ⟨dirs, files⟩ d) := by
    apply List.filter_congr
    intro x hx
    cases hc : hasChild ⟨dirs, files⟩ x with
    | true =>
      apply decide_eq_true
      intro hxL
      have := ((hmem x).mp hxL).2
      rw [hc] at this
      cases this
    | false =>
      exact decide_eq_false (not_not_intro ((hmem x).mpr ⟨hx, hc⟩))
  rw [hfil]

/-- Witness for the amended C8 theorem at a concrete world. -/
theorem remove_empty_folder_removes_exactly_scanned_witness :
    remove_empty_folder c8World = .ok ⟨[["a"]], []⟩ := by
  rw [remove_empty_folder_removes_exactly_scanned c8World (by decide)]
  rfl

theorem update_data_go_first_match_fail {σ : Type}
    (write : σ → FsPath → Metadata → Except PyError σ)
    (identifier : String) (m : Metadata) (po : Option FsPath)
    (e : DataEntry) (rest : List DataEntry)
    (he : e.metadata.identifier = identifier) :
    ∀ (pre : List DataEntry) (s : σ) (err : PyError),
      write s e.path m = .error err →
      (∀ d ∈ pre, d.metadata.identifier ≠ identifier) →
      update_data_go write identifier (some m) po s (pre ++ e :: rest)
        = ⟨s, pre ++ e :: rest, true⟩
  | [], s, err, hw, _ => by
    simp [update_data_go, he, hw]
  | d :: pre', s, err, hw, hpre => by
    have hd := hpre d (List.mem_cons_self d pre')
    have ih := update_data_go_first_match_fail write identifier m po e rest he
      pre' s err hw (fun x hx => hpre x (List.mem_cons_of_mem d hx))
    simp only [List.cons_append]
    unfold update_data_go
    rw [if_neg hd, ih]

/-- C9 amended: when `update_data` is called with new metadata and the
MetadataPort write to the first matching entry's location fails, every
entry — the failing one included — retains its prior metadata and no
write is performed, but the `EncodeError` propagates as an uncaught
exception (the failure flag): the update and the enclosing pass abort
rather than continue.  (When an earlier entry shares the identifier, its
already-applied update survives the abort — see the counterexample.) -/
theorem update_data_write_failure_aborts (port : FsPath → Bool)
    (identifier : String) (m : Metadata) (po : Option FsPath)
    (e : DataEntry) (rest pre : List DataEntry)
    (hpre : ∀ d ∈ pre, d.metadata.identifier ≠ identifier)
    (he : e.metadata.identifier = identifier)
    (hport : port e.path = false) :
    update_data_port port (pre ++ e :: rest) identifier (some m) po
      = ⟨[], pre ++ e :: rest, true⟩ := by
  unfold update_data_port
  exact update_data_go_first_match_fail _ identifier m po e rest he pre []
    .encodeError (by simp [hport]) hpre

/-- Witness for the amended C9 theorem at a concrete input. -/
theorem update_data_write_failure_aborts_witness :
    update_data_port c9Port [eOther, e2] "I" (some mNew) none
      = ⟨[], [eOther, e2], true⟩ :=
  update_data_write_failure_aborts c9Port "I" mNew none e2 [] [eOther]
    (by decide) (by decide) (by decide)

theorem update_data_go_port_all_ok (port : FsPath → Bool)
    (identifier : String) (m : Metadata) (po : Option FsPath) :
    ∀ (data : List DataEntry) (s : List (FsPath × Metadata)),
      (∀ d ∈ data, d.metadata.identifier = identifier → port d.path = true) →
      update_data_go
          (fun log p mm =>
            if port p then .ok (log ++ [(p, mm)]) else .error .encodeError)
          identifier (some m) po s data
        = ⟨s ++ (data.filter
                (fun d => decide (d.metadata.identifier = identifier))).map
                (fun d => (d.path, m)),
           data.map (fun d =>
             if d.metadata.identifier = identifier then
               applyPath po { d with metadata := m }
             else d),
           false⟩
  | [], s, _ => by simp [update_data_go]
  | d :: rest, s, hall => by
    by_cases hd : d.metadata.identifier = identifier
    · have hp := hall d (List.mem_cons_self d rest) hd
      have ih := update_data_go_port_all_ok port identifier m po rest
        (s ++ [(d.path, m)]) (fun x hx => hall x (List.mem_cons_of_mem d hx))
      unfold update_data_go
      rw [if_pos hd]
      simp only [hp, if_true, ih, hd]
      simp [List.filter_cons, hd, List.append_assoc]
    · have ih := update_data_go_port_all_ok port identifier m po rest s
        (fun x hx => hall x (List.mem_cons_of_mem d hx))
      unfold update_data_go
      rw [if_neg hd, ih]
      simp [List.filter_cons, hd]

/-- C10: one `update_data` call addressed by identifier mutates every
entry whose recorded identifier matches — supplied metadata is written to
each matching entry's own recorded location (the writes log), each
matching in-memory record is replaced, and a supplied path overwrites the
location of all matching entries; non-matching entries are untouched. -/
theorem update_data_updates_all_matching_entries (port : FsPath → Bool)
    (data : List DataEntry) (identifier : String) (m : Metadata)
    (po : Option FsPath)
    (h : ∀ d ∈ data, d.metadata.identifier = identifier → port d.path = true) :
    update_data_port port data identifier (some m) po
      = ⟨(data.filter
            (fun d => decide (d.metadata.identifier = identifier))).map
            (fun d => (d.path, m)),
         data.map (fun d =>
           if d.metadata.identifier = identifier then
             applyPath po { d with metadata := m }
           else d),
         false⟩ := by
  have hgo := update_data_go_port_all_ok port identifier m po data [] h
  simpa [update_data_port] using hgo

/-- Witness for the C10 theorem at a concrete input: one edit rewrites
both entries sharing identifier `I`, through each entry's own path. -/
theorem update_data_updates_all_matching_entries_witness :
    update_data_port (fun _ => true) [e1, e2] "I" (some mNew) (some ["q"])
      = ⟨[(["p1"], mNew), (["p2"], mNew)],
         [{ e1 with metadata := mNew, path := ["q"] },
          { e2 with metadata := mNew, path := ["q"] }],
         false⟩ := by
  rw [update_data_updates_all_matching_entries (fun _ => true) [e1, e2] "I"
    mNew (some ["q"]) (by decide)]
  rfl

end EpubSorter

